import Mathlib

/-!
Verification of the alert relevance scoring and feedback-training pipeline
of the investor-intelligence repository
(`RelevanceModel` in `ml/relevance_model.py` and
`AlertFeedbackService` in `services/alert_feedback_service.py`).

Python dictionaries are embedded as Lean structures; a field whose key
may be absent from the dictionary is an `Option` (with `.getD` mirroring
`dict.get(key, default)`).  Python floats are embedded as exact rationals
(`ℚ`); the arithmetic of the source uses only literal decimal constants,
sums and divisions, so `ℚ` is the intended exact semantics.
-/

set_option maxHeartbeats 4000000

/-- The alert dictionary consumed by `RelevanceModel.predict_relevance`.
`type` is accessed as `alert["type"]` (mandatory); `change`, `sentiment`
and `symbol` are accessed through `alert.get`, hence `Option`. -/
structure AlertDict where
  type : String
  change : Option ℚ
  sentiment : Option String
  symbol : Option String
deriving Repr, DecidableEq

/-- The user-preference dictionary: keys `min_price_change_alert`
(default 0.0) and `risk_profile` (default "moderate"). -/
structure UserPreferences where
  min_price_change_alert : Option ℚ
  risk_profile : Option String
deriving Repr, DecidableEq

/-- The portfolio-context dictionary: `symbols_held` (default `[]`),
`holding_quantities` (default `{}`, an association of symbol to quantity)
and `portfolio_value`.  The defaults of `dict.get` are folded into the
empty list here, which is extensionally identical. -/
structure PortfolioContext where
  symbols_held : List String
  holding_quantities : List (String × ℤ)
  portfolio_value : ℚ
deriving Repr, DecidableEq

/-- `alert.get("symbol") in portfolio_context.get("symbols_held", [])`:
a `None` symbol is in no list. -/
def heldSymbol (alert : AlertDict) (portfolio_context : PortfolioContext) : Bool :=
  match alert.symbol with
  | some s => decide (s ∈ portfolio_context.symbols_held)
  | none => false

/-- Factor 1 of `RelevanceModel.predict_relevance` ("Alert Type and
Magnitude"): the if/elif chain on the alert's type, applied to the running
score. -/
def factor1_score (alert : AlertDict) (user_preferences : UserPreferences)
    (portfolio_context : PortfolioContext) (score : ℚ) : ℚ :=
  if alert.type ∈ [("price_gain"), ("price_drop")] then
    let change_percent := alert.change.getD 0
    let min_change_pref := user_preferences.min_price_change_alert.getD 0.0
    if |change_percent| ≥ min_change_pref then
      score + 0.2 * (|change_percent| / 5.0)
    else
      score - 0.1
  else if alert.type = ("news_sentiment") then
    let sentiment := alert.sentiment.getD ("neutral")
    let score :=
      if sentiment = ("positive") then score + 0.15
      else if sentiment = ("negative") then score + 0.15
      else score
    if heldSymbol alert portfolio_context then score + 0.1 else score
  else if alert.type = ("earnings_report") then
    if heldSymbol alert portfolio_context then score + 0.2 else score
  else score

/-- Factor 2 ("User Preferences beyond direct filtering"): the
risk-profile bonuses. -/
def factor2_score (alert : AlertDict) (user_preferences : UserPreferences)
    (score : ℚ) : ℚ :=
  let risk_profile := user_preferences.risk_profile.getD ("moderate")
  if risk_profile = ("conservative") ∧ alert.type = ("price_drop") then score + 0.1
  else if risk_profile = ("aggressive") ∧ alert.type = ("price_gain") then score + 0.1
  else score

/-- Factor 3 ("Portfolio Context"): the significant-holding bonus. -/
def factor3_score (alert : AlertDict) (portfolio_context : PortfolioContext)
    (score : ℚ) : ℚ :=
  match alert.symbol with
  | some s =>
    match portfolio_context.holding_quantities.lookup s with
    | some quantity => if quantity > 50 then score + 0.05 else score
    | none => score
  | none => score

/-- The running `score` accumulated by `RelevanceModel.predict_relevance`
before the final clamp: base 0.5 threaded through the three factor blocks
in source order. -/
def raw_score (alert : AlertDict) (user_preferences : UserPreferences)
    (portfolio_context : PortfolioContext) : ℚ :=
  factor3_score alert portfolio_context
    (factor2_score alert user_preferences
      (factor1_score alert user_preferences portfolio_context 0.5))

/-- `RelevanceModel.predict_relevance`: the accumulated score clamped to
`[0, 1]` by `min(1.0, max(0.0, score))`. -/
def predict_relevance (alert : AlertDict) (user_preferences : UserPreferences)
    (portfolio_context : PortfolioContext) : ℚ :=
  min 1.0 (max 0.0 (raw_score alert user_preferences portfolio_context))

/-! Spec-side additive adjustments of §4.5, one definition per bullet,
to be compared with the sequential accumulation of the source. -/

/-- Modelled from the spec: §4.5 price-type magnitude adjustment. -/
def spec_price_adjust (alert : AlertDict) (user_preferences : UserPreferences) : ℚ :=
  if alert.type ∈ [("price_gain"), ("price_drop")] then
    if |alert.change.getD 0| ≥ user_preferences.min_price_change_alert.getD 0.0 then
      0.2 * (|alert.change.getD 0| / 5.0)
    else -0.1
  else 0

/-- Modelled from the spec: §4.5 news-sentiment adjustment. -/
def spec_news_adjust (alert : AlertDict) (portfolio_context : PortfolioContext) : ℚ :=
  if alert.type = ("news_sentiment") then
    (if alert.sentiment.getD ("neutral") = ("positive")
        ∨ alert.sentiment.getD ("neutral") = ("negative") then 0.15 else 0)
      + (if heldSymbol alert portfolio_context then 0.1 else 0)
  else 0

/-- Modelled from the spec: §4.5 earnings-report adjustment. -/
def spec_earnings_adjust (alert : AlertDict) (portfolio_context : PortfolioContext) : ℚ :=
  if alert.type = ("earnings_report") ∧ heldSymbol alert portfolio_context then 0.2 else 0

/-- Modelled from the spec: §4.5 risk-profile adjustment. -/
def spec_risk_adjust (alert : AlertDict) (user_preferences : UserPreferences) : ℚ :=
  if user_preferences.risk_profile.getD ("moderate") = ("conservative")
      ∧ alert.type = ("price_drop") then 0.1
  else if user_preferences.risk_profile.getD ("moderate") = ("aggressive")
      ∧ alert.type = ("price_gain") then 0.1
  else 0

/-- Modelled from the spec: §4.5 significant-holding adjustment. -/
def spec_holding_adjust (alert : AlertDict) (portfolio_context : PortfolioContext) : ℚ :=
  match alert.symbol with
  | some s =>
    match portfolio_context.holding_quantities.lookup s with
    | some quantity => if quantity > 50 then 0.05 else 0
    | none => 0
  | none => 0

/-- `FeedbackType` enum of `models/alert_feedback.py`. -/
inductive FeedbackType where
  | VIEW
  | CLICK
  | DISMISS
  | MARK_RELEVANT
  | MARK_IRRELEVANT
  | RATING
deriving Repr, DecidableEq

/-- The `AlertFeedback` dataclass.  Timestamps are kept in their stored
form, ISO-8601 text, whose lexicographic order is the order SQLite uses
on the TEXT `timestamp` column. -/
structure AlertFeedback where
  alert_id : ℤ
  user_id : String
  feedback_type : FeedbackType
  timestamp : String
  id : Option ℤ
  rating : Option ℤ
  relevance_score : Option ℚ
  interaction_duration : Option ℚ
  dismiss_reason : Option String
  notes : Option String
deriving Repr, DecidableEq

/-- The per-event addition of the loop body of
`AlertFeedbackService.calculate_alert_engagement_score`.  The rating
branch guards on Python truthiness (`if feedback.rating:`), so a missing
or zero rating contributes nothing. -/
def engagement_contribution (feedback : AlertFeedback) : ℚ :=
  match feedback.feedback_type with
  | .VIEW => 0.1
  | .CLICK => 0.3
  | .MARK_RELEVANT => 0.5
  | .RATING =>
    match feedback.rating with
    | some r => if r ≠ 0 then ((r : ℚ) / 5.0) * 0.4 else 0
    | none => 0
  | .MARK_IRRELEVANT => -0.2
  | .DISMISS => -0.1

/-- `AlertFeedbackService.calculate_alert_engagement_score` applied to the
feedback list of one alert: early 0.0 on no feedback, summing loop,
normalisation by `max(total_interactions, 1)`, clamp
`max(0.0, min(1.0, normalized_score))`. -/
def calculate_alert_engagement_score (feedback_list : List AlertFeedback) : ℚ :=
  if feedback_list = [] then 0.0
  else
    let total_interactions := feedback_list.length
    let score := feedback_list.foldl (fun s f => s + engagement_contribution f) 0.0
    let normalized_score := score / ((max total_interactions 1 : ℕ) : ℚ)
    max 0.0 (min 1.0 normalized_score)

/-- Modelled from the spec: the §4.2 per-event signed contribution table
(view +0.1, click +0.3, mark-relevant +0.5, rating +(rating/5)*0.4,
mark-irrelevant -0.2, dismiss -0.1). -/
def spec_engagement_contribution (feedback : AlertFeedback) : ℚ :=
  match feedback.feedback_type with
  | .VIEW => 0.1
  | .CLICK => 0.3
  | .MARK_RELEVANT => 0.5
  | .RATING => ((feedback.rating.getD 0 : ℤ) : ℚ) / 5 * 0.4
  | .MARK_IRRELEVANT => -0.2
  | .DISMISS => -0.1

/-- A feedback dictionary of the shape consumed by
`RelevanceModel._calculate_ground_truth` (and produced by
`AlertFeedbackService.get_relevance_training_data`).  The `rating` field
is three-valued to model Python dictionaries exactly: `none` = the key is
absent, `some none` = the key is present with value `None` (a SQL NULL),
`some (some r)` = the key holds the integer `r`. -/
structure FeedbackDict where
  type : String
  rating : Option (Option ℤ)
  interaction_duration : Option ℚ
  dismiss_reason : Option String
  timestamp : Option String
deriving Repr, DecidableEq

/-- `feedback.get("rating", 3)`: the default 3 applies only when the key
is absent; a present `None` value is returned as is. -/
def ratingGet (feedback : FeedbackDict) : Option ℤ :=
  match feedback.rating with
  | none => some 3
  | some v => v

/-- The accumulation loop of `_calculate_ground_truth` over
`(total_score, total_weight)`.  A rating event whose value is `None`
makes `rating - 1` raise a `TypeError`; that reachable error branch is
modelled as `Except.error`. -/
def gtLoop : List FeedbackDict → ℚ × ℚ → Except Unit (ℚ × ℚ)
  | [], acc => .ok acc
  | feedback :: rest, acc =>
    if feedback.type = ("rating") then
      match ratingGet feedback with
      | some rating =>
        gtLoop rest (acc.1 + (((rating : ℚ) - 1) / 4.0) * 2.0, acc.2 + 2.0)
      | none => .error ()
    else if feedback.type = ("mark_relevant") then
      gtLoop rest (acc.1 + 1.0 * 1.5, acc.2 + 1.5)
    else if feedback.type = ("mark_irrelevant") then
      gtLoop rest (acc.1 + 0.0 * 1.5, acc.2 + 1.5)
    else if feedback.type = ("click") then
      gtLoop rest (acc.1 + 0.8 * 1.0, acc.2 + 1.0)
    else if feedback.type = ("view") then
      gtLoop rest (acc.1 + 0.5 * 0.5, acc.2 + 0.5)
    else if feedback.type = ("dismiss") then
      gtLoop rest (acc.1 + 0.2 * 1.0, acc.2 + 1.0)
    else gtLoop rest acc

/-- `RelevanceModel._calculate_ground_truth`: `None` on an empty list,
otherwise the weighted average, `None` again when the total weight is
zero. -/
def calculate_ground_truth (feedback_list : List FeedbackDict) :
    Except Unit (Option ℚ) :=
  if feedback_list = [] then .ok none
  else
    match gtLoop feedback_list (0.0, 0.0) with
    | .error e => .error e
    | .ok (total_score, total_weight) =>
      if total_weight = 0 then .ok none
      else .ok (some (total_score / total_weight))

/-- Modelled from the spec: the §4.3 per-kind (score, weight) table;
`none` for an unrecognized kind. -/
def spec_gt_pair (e : FeedbackDict) : Option (ℚ × ℚ) :=
  if e.type = ("rating") then
    some (((((ratingGet e).getD 3 : ℤ) : ℚ) - 1) / 4, 2)
  else if e.type = ("mark_relevant") then some (1, 1.5)
  else if e.type = ("mark_irrelevant") then some (0, 1.5)
  else if e.type = ("click") then some (0.8, 1)
  else if e.type = ("view") then some (0.5, 0.5)
  else if e.type = ("dismiss") then some (0.2, 1)
  else none

/-- Modelled from the spec: Σ(score·weight) over the recognized events. -/
def gt_scores (l : List FeedbackDict) : ℚ :=
  ((l.filterMap spec_gt_pair).map fun p => p.1 * p.2).sum

/-- Modelled from the spec: Σ(weight) over the recognized events. -/
def gt_weights (l : List FeedbackDict) : ℚ :=
  ((l.filterMap spec_gt_pair).map fun p => p.2).sum

/-- Every rating-kind event carries a non-null rating value (the shape
`AlertFeedback.__post_init__` guarantees for persisted events). -/
def no_null_ratings (l : List FeedbackDict) : Prop :=
  ∀ e ∈ l, e.type = ("rating") → e.rating ≠ some none

/-- Every rating-kind event carries (explicitly or by the absent-key
default 3) a rating in [1, 5]. -/
def ratings_in_range (l : List FeedbackDict) : Prop :=
  ∀ e ∈ l, e.type = ("rating") → ∀ r, ratingGet e = some r → 1 ≤ r ∧ r ≤ 5

/-- The feedback dictionary built by
`AlertFeedbackService.get_relevance_training_data` (lines 228-234) from a
joined row: every key, in particular `"rating"`, is always present, with
the column value (possibly NULL). -/
def training_feedback_row (ftype : String) (rating : Option ℤ)
    (duration : Option ℚ) (reason : Option String) (ts : Option String) :
    FeedbackDict :=
  { type := ftype, rating := some rating, interaction_duration := duration,
    dismiss_reason := reason, timestamp := ts }

/-- Prefix test on character lists, used for the substring search. -/
def listPrefixOf : List Char → List Char → Bool
  | [], _ => true
  | _ :: _, [] => false
  | a :: as, b :: bs => a = b && listPrefixOf as bs

/-- Substring test on character lists: the pattern is a prefix of some
suffix. -/
def containsSubAux (pat : List Char) : List Char → Bool
  | [] => listPrefixOf pat []
  | c :: rest => listPrefixOf pat (c :: rest) || containsSubAux pat rest

/-- The substring test `pat in message` of Python (applied after
`.lower()`), on the character lists of the strings. -/
def containsSub (hay pat : String) : Bool :=
  containsSubAux pat.toList hay.toList

/-- A training-data record as produced by
`AlertFeedbackService.get_relevance_training_data`: alert columns
(possibly NULL) plus the aggregated feedback list.  Every field is read
through `dict.get` by the consumers, hence `Option`. -/
structure AlertData where
  alert_id : Option ℤ
  alert_type : Option String
  symbol : Option String
  message : Option String
  predicted_relevance : Option ℚ
  feedback : Option (List FeedbackDict)
deriving Repr, DecidableEq

/-- The flat feature mapping built by `RelevanceModel._extract_features`. -/
structure Features where
  alert_type : String
  symbol : String
  has_symbol : ℕ
  message_length : ℕ
  predicted_relevance : ℚ
  contains_percent : ℕ
  contains_price : ℕ
  contains_earnings : ℕ
  contains_news : ℕ
  contains_alert : ℕ
deriving Repr, DecidableEq

/-- `RelevanceModel._extract_features`.  `has_symbol` mirrors Python
truthiness (`1 if alert_data.get("symbol") else 0`): both a missing key
and an empty string give 0. -/
def extract_features (alert_data : AlertData) : Features :=
  let message := (alert_data.message.getD ("")).toLower
  { alert_type := alert_data.alert_type.getD ("")
    symbol := alert_data.symbol.getD ("")
    has_symbol := if alert_data.symbol.getD ("") ≠ ("") then 1 else 0
    message_length := (alert_data.message.getD ("")).length
    predicted_relevance := alert_data.predicted_relevance.getD 0.5
    contains_percent := if containsSub message ("%") then 1 else 0
    contains_price :=
      if [("price"), ("stock"), ("share")].any (fun word => containsSub message word)
      then 1 else 0
    contains_earnings := if containsSub message ("earnings") then 1 else 0
    contains_news := if containsSub message ("news") then 1 else 0
    contains_alert := if containsSub message ("alert") then 1 else 0 }

/-- The four performance numbers returned by
`RelevanceModel._calculate_performance_metrics`. -/
structure Metrics where
  accuracy : ℚ
  precision : ℚ
  «recall» : ℚ
  f1_score : ℚ
deriving Repr, DecidableEq

/-- The mock user preferences hard-coded in
`_calculate_performance_metrics`. -/
def default_user_preferences : UserPreferences :=
  { min_price_change_alert := some 1.0, risk_profile := some ("moderate") }

/-- The mock portfolio context hard-coded in
`_calculate_performance_metrics`. -/
def mock_portfolio_context : PortfolioContext :=
  { symbols_held := [], holding_quantities := [], portfolio_value := 10000 }

/-- The mock alert dictionary rebuilt from a feature set (`type`, `symbol`
and a placeholder message; the message is never read by the predictor). -/
def synthetic_alert (feature : Features) : AlertDict :=
  { type := feature.alert_type, change := none, sentiment := none,
    symbol := some feature.symbol }

/-- `RelevanceModel._calculate_performance_metrics`: predictions through
`predict_relevance` under the mock preferences and context, accuracy =
fraction of predictions within 0.2 of the label, and precision, recall
and F1 reported as copies of accuracy. -/
def calculate_performance_metrics (features : List Features)
    (labels : List ℚ) : Metrics :=
  if features = [] ∨ labels = [] then
    { accuracy := 0.0, precision := 0.0, «recall» := 0.0, f1_score := 0.0 }
  else
    let predictions := features.map fun feature =>
      predict_relevance (synthetic_alert feature) default_user_preferences
        mock_portfolio_context
    let correct_predictions :=
      ((predictions.zip labels).filter fun p => |p.1 - p.2| ≤ 0.2).length
    let accuracy :=
      if predictions ≠ [] then
        (correct_predictions : ℚ) / (predictions.length : ℚ)
      else 0.0
    { accuracy := accuracy, precision := accuracy, «recall» := accuracy,
      f1_score := accuracy }

/-- The in-memory `model_performance` dictionary. -/
structure Performance where
  accuracy : ℚ
  precision : ℚ
  «recall» : ℚ
  f1_score : ℚ
  last_updated : Option String
deriving Repr, DecidableEq

/-- The mutable state of a `RelevanceModel` instance: the stored
`feedback_data` pairs and the performance record. -/
structure ModelState where
  feedback_data : List (Features × ℚ)
  model_performance : Performance
deriving Repr, DecidableEq

/-- The state set up by `RelevanceModel.__init__`. -/
def initial_model_state : ModelState :=
  { feedback_data := [],
    model_performance :=
      { accuracy := 0.0, precision := 0.0, «recall» := 0.0, f1_score := 0.0,
        last_updated := none } }

/-- The dictionary returned by `RelevanceModel.train_with_feedback`. -/
structure TrainResult where
  status : String
  message : String
  performance : Performance
  training_samples : Option ℕ
deriving Repr, DecidableEq

/-- The feature/label extraction loop of `train_with_feedback`: one
(features, ground-truth) pair per record whose ground truth is not
`None`; a `TypeError` from the ground-truth computation propagates. -/
def collectSamples : List AlertData → Except Unit (List (Features × ℚ))
  | [] => .ok []
  | alert_data :: rest => do
    let ground_truth ← calculate_ground_truth (alert_data.feedback.getD [])
    let tail ← collectSamples rest
    match ground_truth with
    | some label => .ok ((extract_features alert_data, label) :: tail)
    | none => .ok tail

/-- The performance record written by a successful retrain: the four
metric numbers plus the `datetime.now()` timestamp (passed in as `now`). -/
def train_performance (now : String) (samples : List (Features × ℚ)) :
    Performance :=
  let m := calculate_performance_metrics (samples.map Prod.fst)
    (samples.map Prod.snd)
  { accuracy := m.accuracy, precision := m.precision, «recall» := m.«recall»,
    f1_score := m.f1_score, last_updated := some now }

/-- `RelevanceModel.train_with_feedback` as a state transformer: the
"no_data" early return, the extraction loop, the "no_valid_data" return,
and the success path that replaces `feedback_data` and the performance
record. -/
def train_with_feedback (now : String) (st : ModelState)
    (training_data : List AlertData) : Except Unit (TrainResult × ModelState) :=
  if training_data = [] then
    .ok ({ status := "no_data", message := "No training data provided",
           performance := st.model_performance, training_samples := none }, st)
  else do
    let samples ← collectSamples training_data
    if samples = [] then
      .ok ({ status := "no_valid_data",
             message := "No valid training examples found",
             performance := st.model_performance, training_samples := none }, st)
    else
      let features := samples.map Prod.fst
      let performance := train_performance now samples
      .ok ({ status := "success",
             message := "Trained on " ++ toString features.length ++ " examples",
             performance := performance,
             training_samples := some features.length },
           { feedback_data := samples, model_performance := performance })

/-- Modelled from the spec: §4.6 step 3 accuracy — the fraction of mock
predictions (under preferences {min_price_change_alert: 1.0,
risk_profile: "moderate"} and an empty portfolio context) within 0.2 of
the ground-truth label. -/
def spec_accuracy (features : List Features) (labels : List ℚ) : ℚ :=
  let predictions := features.map fun f =>
    predict_relevance
      { type := f.alert_type, change := none, sentiment := none,
        symbol := some f.symbol }
      { min_price_change_alert := some 1.0, risk_profile := some ("moderate") }
      { symbols_held := [], holding_quantities := [], portfolio_value := 10000 }
  (((predictions.zip labels).filter fun p => |p.1 - p.2| ≤ 0.2).length : ℚ)
    / (predictions.length : ℚ)

/-- Accumulator entry of the `alert_type_stats` dictionary in
`get_feedback_insights` before the average pass. -/
structure StatAcc where
  count : ℕ
  total_relevance : ℚ
deriving Repr, DecidableEq

/-- One reported `alert_type_statistics` entry after the average pass. -/
structure TypeStat where
  count : ℕ
  total_relevance : ℚ
  avg_relevance : ℚ
deriving Repr, DecidableEq

/-- One iteration of the grouping loop of `get_feedback_insights`:
create the entry on first sight (insertion order preserved, as in a
Python dict), then increment count and total. -/
def bumpStat : List (String × StatAcc) → String → ℚ → List (String × StatAcc)
  | [], k, label => [(k, { count := 1, total_relevance := label })]
  | (k2, stat) :: rest, k, label =>
    if k2 = k then
      (k2, { count := stat.count + 1,
             total_relevance := stat.total_relevance + label }) :: rest
    else (k2, stat) :: bumpStat rest k label

/-- The `alert_type_stats` dictionary after the grouping loop. -/
def alert_type_stats_raw (data : List (Features × ℚ)) :
    List (String × StatAcc) :=
  data.foldl (fun acc p => bumpStat acc p.1.alert_type p.2) []

/-- The reported statistics: the averaging pass
(`stats["avg_relevance"] = total_relevance / count`). -/
def alertTypeStats (data : List (Features × ℚ)) : List (String × TypeStat) :=
  (alert_type_stats_raw data).map fun p =>
    (p.1, { count := p.2.count, total_relevance := p.2.total_relevance,
            avg_relevance := p.2.total_relevance / (p.2.count : ℚ) })

/-- The value returned by `RelevanceModel.get_feedback_insights`: either
the "No feedback data available" sentinel or the report dictionary. -/
inductive InsightsResult where
  | noFeedbackData
  | insights (total_samples : ℕ) (average_relevance : ℚ)
      (alert_type_statistics : List (String × TypeStat))
      (last_updated : Option String)
deriving Repr, DecidableEq

/-- `RelevanceModel.get_feedback_insights`. -/
def get_feedback_insights (st : ModelState) : InsightsResult :=
  if st.feedback_data = [] then .noFeedbackData
  else
    .insights st.feedback_data.length
      ((st.feedback_data.map fun p => p.2).sum / (st.feedback_data.length : ℚ))
      (alertTypeStats st.feedback_data)
      st.model_performance.last_updated

/-- Sum of the per-type counts of a stats dictionary. -/
def statCountSum (l : List (String × StatAcc)) : ℕ :=
  (l.map fun p => p.2.count).sum

/-- Lookup in the stats dictionary. -/
def findStat (k : String) : List (String × StatAcc) → Option StatAcc
  | [] => none
  | (k2, stat) :: rest => if k2 = k then some stat else findStat k rest

/-- Number of stored pairs of one alert type. -/
def countType (data : List (Features × ℚ)) (k : String) : ℕ :=
  (data.filter fun p => p.1.alert_type = k).length

/-- Sum of the labels of the stored pairs of one alert type. -/
def sumType (data : List (Features × ℚ)) (k : String) : ℚ :=
  ((data.filter fun p => p.1.alert_type = k).map fun p => p.2).sum

/-- Example feature set used in witnesses. -/
def example_feature : Features :=
  { alert_type := "price_gain", symbol := "AAPL", has_symbol := 1,
    message_length := 5, predicted_relevance := 0.5,
    contains_percent := 0, contains_price := 0, contains_earnings := 0,
    contains_news := 0, contains_alert := 0 }

/-- Timestamp-descending order: the `ORDER BY timestamp DESC` of the
user-feedback query. -/
def tsDesc (a b : AlertFeedback) : Prop := b.timestamp ≤ a.timestamp

instance : DecidableRel tsDesc := fun a b =>
  inferInstanceAs (Decidable (b.timestamp ≤ a.timestamp))

instance : IsTotal AlertFeedback tsDesc :=
  ⟨fun a b => le_total b.timestamp a.timestamp⟩

instance : IsTrans AlertFeedback tsDesc :=
  ⟨fun _ _ _ hab hbc => le_trans hbc hab⟩

/-- `AlertFeedbackService.get_feedback_for_user` over the stored feedback
rows: the SQL filter `WHERE user_id = ? AND timestamp >= ?` — the cutoff
parameter is `(datetime.now() - timedelta(days=days_back)).isoformat()`
and the comparison is the lexicographic TEXT comparison SQLite applies to
the ISO strings — followed by `ORDER BY timestamp DESC`.  No upper bound
appears in the query. -/
def get_feedback_for_user (db : List AlertFeedback) (user_id : String)
    (cutoff : String) : List AlertFeedback :=
  List.insertionSort tsDesc
    (db.filter fun f => decide (f.user_id = user_id ∧ cutoff ≤ f.timestamp))

/-- Example state with two alert-type groups, used to witness the
insights claim. -/
def example_insights_state : ModelState :=
  { feedback_data :=
      [({ alert_type := "price_gain", symbol := "AAPL", has_symbol := 1,
          message_length := 5, predicted_relevance := 0.5,
          contains_percent := 0, contains_price := 0, contains_earnings := 0,
          contains_news := 0, contains_alert := 0 }, 1),
       ({ alert_type := "news_sentiment", symbol := "MSFT", has_symbol := 1,
          message_length := 5, predicted_relevance := 0.5,
          contains_percent := 0, contains_price := 0, contains_earnings := 0,
          contains_news := 0, contains_alert := 0 }, 0)],
    model_performance :=
      { accuracy := 0.0, precision := 0.0, «recall» := 0.0, f1_score := 0.0,
        last_updated := none } }

theorem factor1_eq (alert : AlertDict) (user_preferences : UserPreferences)
    (portfolio_context : PortfolioContext) (s : ℚ) :
    factor1_score alert user_preferences portfolio_context s =
      s + spec_price_adjust alert user_preferences
        + spec_news_adjust alert portfolio_context
        + spec_earnings_adjust alert portfolio_context := by
  unfold factor1_score spec_price_adjust spec_news_adjust spec_earnings_adjust
  simp only []
  by_cases hm : alert.type ∈ [("price_gain"), ("price_drop")]
  · have hns : ¬alert.type = ("news_sentiment") := by
      simp only [List.mem_cons, List.not_mem_nil, or_false] at hm
      rcases hm with h | h <;> rw [h] <;> decide
    have her : ¬alert.type = ("earnings_report") := by
      simp only [List.mem_cons, List.not_mem_nil, or_false] at hm
      rcases hm with h | h <;> rw [h] <;> decide
    have hearn : ¬(alert.type = ("earnings_report")
        ∧ heldSymbol alert portfolio_context = true) := fun h => her h.1
    simp only [if_pos hm, if_neg hns, if_neg hearn]
    split_ifs <;> ring
  · by_cases hns : alert.type = ("news_sentiment")
    · have her : ¬alert.type = ("earnings_report") := by rw [hns]; decide
      have hearn : ¬(alert.type = ("earnings_report")
          ∧ heldSymbol alert portfolio_context = true) := fun h => her h.1
      simp only [if_neg hm, if_pos hns, if_neg hearn]
      split_ifs <;> first | ring1 | tauto
    · by_cases her : alert.type = ("earnings_report")
      · simp only [if_neg hm, if_neg hns, if_pos her]
        by_cases hh : heldSymbol alert portfolio_context = true
        · have hconj : alert.type = ("earnings_report")
              ∧ heldSymbol alert portfolio_context = true := ⟨her, hh⟩
          simp only [if_pos hh, if_pos hconj]
          ring
        · have hconj : ¬(alert.type = ("earnings_report")
              ∧ heldSymbol alert portfolio_context = true) := fun h => hh h.2
          simp only [if_neg hh, if_neg hconj]
          ring
      · have hearn : ¬(alert.type = ("earnings_report")
            ∧ heldSymbol alert portfolio_context = true) := fun h => her h.1
        simp only [if_neg hm, if_neg hns, if_neg her, if_neg hearn]
        ring

theorem factor2_eq (alert : AlertDict) (user_preferences : UserPreferences)
    (s : ℚ) :
    factor2_score alert user_preferences s =
      s + spec_risk_adjust alert user_preferences := by
  unfold factor2_score spec_risk_adjust
  simp only []
  split_ifs <;> ring

theorem factor3_eq (alert : AlertDict) (portfolio_context : PortfolioContext)
    (s : ℚ) :
    factor3_score alert portfolio_context s =
      s + spec_holding_adjust alert portfolio_context := by
  unfold factor3_score spec_holding_adjust
  rcases alert with ⟨t, ch, sent, _ | sym⟩
  · simp
  · rcases h : List.lookup sym portfolio_context.holding_quantities with _ | q
    · simp [h]
    · simp only [h]
      split_ifs <;> ring

theorem raw_score_eq_spec (alert : AlertDict) (user_preferences : UserPreferences)
    (portfolio_context : PortfolioContext) :
    raw_score alert user_preferences portfolio_context =
      0.5 + spec_price_adjust alert user_preferences
        + spec_news_adjust alert portfolio_context
        + spec_earnings_adjust alert portfolio_context
        + spec_risk_adjust alert user_preferences
        + spec_holding_adjust alert portfolio_context := by
  rw [raw_score, factor3_eq, factor2_eq, factor1_eq]

theorem predict_relevance_eq_spec (alert : AlertDict)
    (user_preferences : UserPreferences) (portfolio_context : PortfolioContext) :
    predict_relevance alert user_preferences portfolio_context =
      min 1.0 (max 0.0
        (0.5 + spec_price_adjust alert user_preferences
          + spec_news_adjust alert portfolio_context
          + spec_earnings_adjust alert portfolio_context
          + spec_risk_adjust alert user_preferences
          + spec_holding_adjust alert portfolio_context)) := by
  rw [predict_relevance, raw_score_eq_spec]

/-- C1: `predict_relevance` computes exactly the base score 0.5 plus the
additive adjustments of §4.5 followed by a final clamp to [0,1]; in
particular the held earnings-report alert scores exactly 0.7, the
price-gain alert with change 10, threshold 1.0 and aggressive risk scores
exactly 1.0, and an alert matching no branch under moderate risk and an
empty portfolio context scores exactly 0.5. -/
theorem C1_predict_relevance_formula :
    (∀ (alert : AlertDict) (user_preferences : UserPreferences)
        (portfolio_context : PortfolioContext),
      predict_relevance alert user_preferences portfolio_context =
        min 1.0 (max 0.0
          (0.5 + spec_price_adjust alert user_preferences
            + spec_news_adjust alert portfolio_context
            + spec_earnings_adjust alert portfolio_context
            + spec_risk_adjust alert user_preferences
            + spec_holding_adjust alert portfolio_context)))
    ∧ predict_relevance
        { type := "earnings_report", change := none, sentiment := none,
          symbol := some ("AAPL") }
        { min_price_change_alert := none, risk_profile := none }
        { symbols_held := [("AAPL")], holding_quantities := [],
          portfolio_value := 0 } = 0.7
    ∧ predict_relevance
        { type := "price_gain", change := some 10, sentiment := none,
          symbol := none }
        { min_price_change_alert := some 1.0, risk_profile := some ("aggressive") }
        { symbols_held := [], holding_quantities := [], portfolio_value := 0 } = 1.0
    ∧ predict_relevance
        { type := "other_alert", change := none, sentiment := none,
          symbol := none }
        { min_price_change_alert := none, risk_profile := some ("moderate") }
        { symbols_held := [], holding_quantities := [], portfolio_value := 0 } = 0.5 := by
  refine ⟨predict_relevance_eq_spec, ?_, ?_, ?_⟩
  · unfold predict_relevance
    rw [show raw_score
        { type := "earnings_report", change := none, sentiment := none,
          symbol := some ("AAPL") }
        { min_price_change_alert := none, risk_profile := none }
        { symbols_held := [("AAPL")], holding_quantities := [],
          portfolio_value := 0 } = 7/10 from by
      norm_num [raw_score, factor1_score, factor2_score, factor3_score, heldSymbol,
        show ¬("earnings_report":String) = "price_gain" from by decide,
        show ¬("earnings_report":String) = "price_drop" from by decide,
        show ¬("earnings_report":String) = "news_sentiment" from by decide,
        show ¬("moderate":String) = "conservative" from by decide,
        show ¬("moderate":String) = "aggressive" from by decide]]
    norm_num [min_def, max_def]
  · unfold predict_relevance
    rw [show raw_score
        { type := "price_gain", change := some 10, sentiment := none,
          symbol := none }
        { min_price_change_alert := some 1.0, risk_profile := some ("aggressive") }
        { symbols_held := [], holding_quantities := [],
          portfolio_value := 0 } = 1 from by
      norm_num [raw_score, factor1_score, factor2_score, factor3_score, heldSymbol,
        abs_of_nonneg,
        show ¬("price_gain":String) = "price_drop" from by decide,
        show ¬("aggressive":String) = "conservative" from by decide]]
    norm_num [min_def, max_def]
  · unfold predict_relevance
    rw [show raw_score
        { type := "other_alert", change := none, sentiment := none,
          symbol := none }
        { min_price_change_alert := none, risk_profile := some ("moderate") }
        { symbols_held := [], holding_quantities := [],
          portfolio_value := 0 } = 1/2 from by
      norm_num [raw_score, factor1_score, factor2_score, factor3_score, heldSymbol,
        show ¬("other_alert":String) = "price_gain" from by decide,
        show ¬("other_alert":String) = "price_drop" from by decide,
        show ¬("other_alert":String) = "news_sentiment" from by decide,
        show ¬("other_alert":String) = "earnings_report" from by decide,
        show ¬("moderate":String) = "conservative" from by decide,
        show ¬("moderate":String) = "aggressive" from by decide]]
    norm_num [min_def, max_def]

/-- C2: for every alert, preference and portfolio-context dictionary the
prediction lies in [0,1]; the function is deterministic (identical inputs
give identical output); and at the extreme input change = 500 the
pre-clamp sum exceeds 1 so the clamp binds and the result is exactly 1. -/
theorem C2_predict_relevance_range_deterministic :
    (∀ (alert : AlertDict) (user_preferences : UserPreferences)
        (portfolio_context : PortfolioContext),
      0 ≤ predict_relevance alert user_preferences portfolio_context
        ∧ predict_relevance alert user_preferences portfolio_context ≤ 1)
    ∧ (∀ (a1 a2 : AlertDict) (u1 u2 : UserPreferences) (p1 p2 : PortfolioContext),
        a1 = a2 → u1 = u2 → p1 = p2 →
        predict_relevance a1 u1 p1 = predict_relevance a2 u2 p2)
    ∧ (1 < raw_score
          { type := "price_gain", change := some 500, sentiment := none,
            symbol := none }
          { min_price_change_alert := none, risk_profile := none }
          { symbols_held := [], holding_quantities := [], portfolio_value := 0 }
        ∧ predict_relevance
          { type := "price_gain", change := some 500, sentiment := none,
            symbol := none }
          { min_price_change_alert := none, risk_profile := none }
          { symbols_held := [], holding_quantities := [], portfolio_value := 0 } = 1) := by
  refine ⟨?_, ?_, ?_, ?_⟩
  · intro alert user_preferences portfolio_context
    unfold predict_relevance
    rw [show (1.0:ℚ) = 1 from by norm_num, show (0.0:ℚ) = 0 from by norm_num]
    exact ⟨le_inf (by norm_num) le_sup_left, inf_le_left⟩
  · intro a1 a2 u1 u2 p1 p2 ha hu hp
    rw [ha, hu, hp]
  · rw [show raw_score
        { type := "price_gain", change := some 500, sentiment := none,
          symbol := none }
        { min_price_change_alert := none, risk_profile := none }
        { symbols_held := [], holding_quantities := [],
          portfolio_value := 0 } = 41/2 from by
      norm_num [raw_score, factor1_score, factor2_score, factor3_score, heldSymbol,
        abs_of_nonneg,
        show ¬("price_gain":String) = "price_drop" from by decide,
        show ¬("moderate":String) = "conservative" from by decide,
        show ¬("moderate":String) = "aggressive" from by decide]]
    norm_num
  · unfold predict_relevance
    rw [show raw_score
        { type := "price_gain", change := some 500, sentiment := none,
          symbol := none }
        { min_price_change_alert := none, risk_profile := none }
        { symbols_held := [], holding_quantities := [],
          portfolio_value := 0 } = 41/2 from by
      norm_num [raw_score, factor1_score, factor2_score, factor3_score, heldSymbol,
        abs_of_nonneg,
        show ¬("price_gain":String) = "price_drop" from by decide,
        show ¬("moderate":String) = "conservative" from by decide,
        show ¬("moderate":String) = "aggressive" from by decide]]
    norm_num [min_def, max_def]

/-- Witness for C2: the theorem applied at a concrete input, discharging
the determinism hypotheses. -/
theorem C2_witness :
    predict_relevance
        { type := "price_drop", change := some 2, sentiment := none,
          symbol := none }
        { min_price_change_alert := none, risk_profile := none }
        { symbols_held := [], holding_quantities := [], portfolio_value := 0 } =
      predict_relevance
        { type := "price_drop", change := some 2, sentiment := none,
          symbol := none }
        { min_price_change_alert := none, risk_profile := none }
        { symbols_held := [], holding_quantities := [], portfolio_value := 0 } :=
  C2_predict_relevance_range_deterministic.2.1 _ _ _ _ _ _ rfl rfl rfl

theorem foldl_add_eq {α : Type} (c : α → ℚ) (l : List α) (a : ℚ) :
    List.foldl (fun s f => s + c f) a l = a + (l.map c).sum := by
  induction l generalizing a with
  | nil => simp
  | cons x xs ih => simp only [List.foldl_cons, List.map_cons, List.sum_cons, ih]; ring

theorem engagement_contribution_eq_spec (f : AlertFeedback)
    (h : f.feedback_type = FeedbackType.RATING →
      ∃ r, f.rating = some r ∧ 1 ≤ r ∧ r ≤ 5) :
    engagement_contribution f = spec_engagement_contribution f := by
  unfold engagement_contribution spec_engagement_contribution
  cases hft : f.feedback_type <;> try rfl
  obtain ⟨r, hr, h1, _⟩ := h hft
  rw [hr]
  simp only [Option.getD_some]
  rw [if_pos (by omega)]
  norm_num

/-- C3: the Engagement Scorer sums per-event signed contributions
(view +0.1, click +0.3, mark-relevant +0.5, rating +(rating/5)*0.4,
mark-irrelevant -0.2, dismiss -0.1), divides the sum by the number of
events, then clamps to [0,1], in that order; every feedback list scores
within [0,1]; the empty list scores exactly 0. -/
theorem C3_engagement_scorer :
    (∀ feedback_list : List AlertFeedback,
      (∀ f ∈ feedback_list, f.feedback_type = FeedbackType.RATING →
        ∃ r, f.rating = some r ∧ 1 ≤ r ∧ r ≤ 5) →
      calculate_alert_engagement_score feedback_list =
        if feedback_list = [] then 0
        else max 0 (min 1
          ((feedback_list.map spec_engagement_contribution).sum
            / (feedback_list.length : ℚ))))
    ∧ (∀ feedback_list : List AlertFeedback,
        0 ≤ calculate_alert_engagement_score feedback_list
          ∧ calculate_alert_engagement_score feedback_list ≤ 1)
    ∧ calculate_alert_engagement_score [] = 0 := by
  refine ⟨?_, ?_, by norm_num [calculate_alert_engagement_score]⟩
  · intro l hl
    unfold calculate_alert_engagement_score
    by_cases hnil : l = []
    · rw [if_pos hnil, if_pos hnil]; norm_num
    · rw [if_neg hnil, if_neg hnil]
      simp only []
      rw [show (0.0:ℚ) = 0 from by norm_num, show (1.0:ℚ) = 1 from by norm_num]
      have hlen : max l.length 1 = l.length := by
        have : 1 ≤ l.length := List.length_pos.mpr hnil
        omega
      rw [foldl_add_eq, hlen]
      rw [List.map_congr_left fun f hf => engagement_contribution_eq_spec f (hl f hf)]
      norm_num
  · intro l
    unfold calculate_alert_engagement_score
    by_cases hnil : l = []
    · rw [if_pos hnil]; norm_num
    · rw [if_neg hnil]
      rw [show (0.0:ℚ) = 0 from by norm_num, show (1.0:ℚ) = 1 from by norm_num]
      exact ⟨le_sup_left, sup_le (by norm_num) inf_le_left⟩

/-- Witness for C3: the scorer evaluated on a concrete two-event list
(a view and a 5-star rating) through the theorem, discharging the
rating-range hypothesis; the score is (0.1 + 0.4)/2 = 1/4. -/
theorem C3_witness :
    calculate_alert_engagement_score
        [{ alert_id := 1, user_id := "u", feedback_type := FeedbackType.VIEW,
           timestamp := "2025-01-01T00:00:00", id := none, rating := none,
           relevance_score := none, interaction_duration := none,
           dismiss_reason := none, notes := none },
         { alert_id := 1, user_id := "u", feedback_type := FeedbackType.RATING,
           timestamp := "2025-01-02T00:00:00", id := none, rating := some 5,
           relevance_score := none, interaction_duration := none,
           dismiss_reason := none, notes := none }] = 1/4 := by
  have h := C3_engagement_scorer.1
    [{ alert_id := 1, user_id := "u", feedback_type := FeedbackType.VIEW,
       timestamp := "2025-01-01T00:00:00", id := none, rating := none,
       relevance_score := none, interaction_duration := none,
       dismiss_reason := none, notes := none },
     { alert_id := 1, user_id := "u", feedback_type := FeedbackType.RATING,
       timestamp := "2025-01-02T00:00:00", id := none, rating := some 5,
       relevance_score := none, interaction_duration := none,
       dismiss_reason := none, notes := none }]
    (by
      intro f hf hr
      simp only [List.mem_cons, List.not_mem_nil, or_false] at hf
      rcases hf with rfl | rfl
      · exact absurd hr (by decide)
      · exact ⟨5, rfl, by norm_num, by norm_num⟩)
  rw [h, if_neg (by simp)]
  norm_num [spec_engagement_contribution, min_def, max_def]

theorem gtLoop_ok :
    ∀ (l : List FeedbackDict), no_null_ratings l → ∀ acc : ℚ × ℚ,
      gtLoop l acc = .ok (acc.1 + gt_scores l, acc.2 + gt_weights l) := by
  intro l
  induction l with
  | nil =>
    intro _ acc
    simp [gtLoop, gt_scores, gt_weights]
  | cons e rest ih =>
    intro h acc
    have hrest : no_null_ratings rest := fun x hx => h x (List.mem_cons_of_mem _ hx)
    have hsw : ∀ p : ℚ × ℚ, spec_gt_pair e = some p →
        gt_scores (e :: rest) = p.1 * p.2 + gt_scores rest
          ∧ gt_weights (e :: rest) = p.2 + gt_weights rest := by
      intro p hp
      simp [gt_scores, gt_weights, List.filterMap_cons, hp]
    have hnone : spec_gt_pair e = none →
        gt_scores (e :: rest) = gt_scores rest
          ∧ gt_weights (e :: rest) = gt_weights rest := by
      intro hp
      simp [gt_scores, gt_weights, List.filterMap_cons, hp]
    by_cases h1 : e.type = ("rating")
    · rcases hr : ratingGet e with _ | r
      · exfalso
        apply h e (List.mem_cons_self e rest) h1
        unfold ratingGet at hr
        rcases hv : e.rating with _ | v
        · rw [hv] at hr; simp at hr
        · rw [hv] at hr; simp only [] at hr; rw [hr]
      · have hp : spec_gt_pair e = some ((((r : ℤ) : ℚ) - 1) / 4, 2) := by
          unfold spec_gt_pair
          rw [if_pos h1, hr]
          simp
        obtain ⟨hs, hw⟩ := hsw _ hp
        simp only [gtLoop, if_pos h1, hr]
        rw [ih hrest, hs, hw]
        simp only [Except.ok.injEq, Prod.mk.injEq]
        constructor <;> ring
    · by_cases h2 : e.type = ("mark_relevant")
      · have hp : spec_gt_pair e = some (1, 1.5) := by
          unfold spec_gt_pair; rw [if_neg h1, if_pos h2]
        obtain ⟨hs, hw⟩ := hsw _ hp
        simp only [gtLoop, if_neg h1, if_pos h2]
        rw [ih hrest, hs, hw]
        simp only [Except.ok.injEq, Prod.mk.injEq]
        constructor <;> ring
      · by_cases h3 : e.type = ("mark_irrelevant")
        · have hp : spec_gt_pair e = some (0, 1.5) := by
            unfold spec_gt_pair; rw [if_neg h1, if_neg h2, if_pos h3]
          obtain ⟨hs, hw⟩ := hsw _ hp
          simp only [gtLoop, if_neg h1, if_neg h2, if_pos h3]
          rw [ih hrest, hs, hw]
          simp only [Except.ok.injEq, Prod.mk.injEq]
          constructor <;> ring
        · by_cases h4 : e.type = ("click")
          · have hp : spec_gt_pair e = some (0.8, 1) := by
              unfold spec_gt_pair; rw [if_neg h1, if_neg h2, if_neg h3, if_pos h4]
            obtain ⟨hs, hw⟩ := hsw _ hp
            simp only [gtLoop, if_neg h1, if_neg h2, if_neg h3, if_pos h4]
            rw [ih hrest, hs, hw]
            simp only [Except.ok.injEq, Prod.mk.injEq]
            constructor <;> ring
          · by_cases h5 : e.type = ("view")
            · have hp : spec_gt_pair e = some (0.5, 0.5) := by
                unfold spec_gt_pair
                rw [if_neg h1, if_neg h2, if_neg h3, if_neg h4, if_pos h5]
              obtain ⟨hs, hw⟩ := hsw _ hp
              simp only [gtLoop, if_neg h1, if_neg h2, if_neg h3, if_neg h4,
                if_pos h5]
              rw [ih hrest, hs, hw]
              simp only [Except.ok.injEq, Prod.mk.injEq]
              constructor <;> ring
            · by_cases h6 : e.type = ("dismiss")
              · have hp : spec_gt_pair e = some (0.2, 1) := by
                  unfold spec_gt_pair
                  rw [if_neg h1, if_neg h2, if_neg h3, if_neg h4, if_neg h5,
                    if_pos h6]
                obtain ⟨hs, hw⟩ := hsw _ hp
                simp only [gtLoop, if_neg h1, if_neg h2, if_neg h3, if_neg h4,
                  if_neg h5, if_pos h6]
                rw [ih hrest, hs, hw]
                simp only [Except.ok.injEq, Prod.mk.injEq]
                constructor <;> ring
              · have hp : spec_gt_pair e = none := by
                  unfold spec_gt_pair
                  rw [if_neg h1, if_neg h2, if_neg h3, if_neg h4, if_neg h5,
                    if_neg h6]
                obtain ⟨hs, hw⟩ := hnone hp
                simp only [gtLoop, if_neg h1, if_neg h2, if_neg h3, if_neg h4,
                  if_neg h5, if_neg h6]
                rw [ih hrest, hs, hw]

theorem calculate_ground_truth_ok (l : List FeedbackDict)
    (h : no_null_ratings l) :
    calculate_ground_truth l =
      if gt_weights l = 0 then .ok none
      else .ok (some (gt_scores l / gt_weights l)) := by
  unfold calculate_ground_truth
  by_cases hnil : l = []
  · subst hnil
    simp [gt_scores, gt_weights]
  · rw [if_neg hnil, gtLoop_ok l h (0.0, 0.0)]
    norm_num

theorem spec_gt_pair_weight_pos (e : FeedbackDict) (p : ℚ × ℚ)
    (hp : spec_gt_pair e = some p) : 0 < p.2 := by
  unfold spec_gt_pair at hp
  split_ifs at hp
  all_goals simp only [Option.some.injEq] at hp
  all_goals (subst hp; norm_num)

theorem spec_gt_pair_score_range (e : FeedbackDict) (p : ℚ × ℚ)
    (hp : spec_gt_pair e = some p)
    (hr : e.type = ("rating") → ∀ r, ratingGet e = some r → 1 ≤ r ∧ r ≤ 5) :
    0 ≤ p.1 ∧ p.1 ≤ 1 := by
  unfold spec_gt_pair at hp
  split_ifs at hp with h1 h2 h3 h4 h5 h6
  case pos =>
    simp only [Option.some.injEq] at hp
    subst hp
    rcases hg : ratingGet e with _ | r
    · simp only [hg, Option.getD_none]
      norm_num
    · obtain ⟨hr1, hr5⟩ := hr h1 r hg
      simp only [hg, Option.getD_some]
      have hc1 : (1:ℚ) ≤ (r:ℚ) := by exact_mod_cast hr1
      have hc5 : (r:ℚ) ≤ 5 := by exact_mod_cast hr5
      constructor <;> [linarith; linarith]
  all_goals simp only [Option.some.injEq] at hp
  all_goals (subst hp; norm_num)

theorem gt_weights_nonneg (l : List FeedbackDict) : 0 ≤ gt_weights l := by
  unfold gt_weights
  apply List.sum_nonneg
  intro x hx
  simp only [List.mem_map, List.mem_filterMap] at hx
  obtain ⟨p, ⟨e, _, hp⟩, rfl⟩ := hx
  exact le_of_lt (spec_gt_pair_weight_pos e p hp)

theorem gt_weights_eq_zero_iff (l : List FeedbackDict) :
    gt_weights l = 0 ↔ l.filterMap spec_gt_pair = [] := by
  constructor
  · intro h0
    rcases hfm : l.filterMap spec_gt_pair with _ | ⟨p, rest⟩
    · rfl
    · exfalso
      have hsum : gt_weights l = p.2 + (rest.map fun q => q.2).sum := by
        unfold gt_weights
        rw [hfm]
        simp
      have hp : 0 < p.2 := by
        have hmem : p ∈ l.filterMap spec_gt_pair := by
          rw [hfm]; exact List.mem_cons_self _ _
        rw [List.mem_filterMap] at hmem
        obtain ⟨e, _, he⟩ := hmem
        exact spec_gt_pair_weight_pos e p he
      have hrest : 0 ≤ (rest.map fun q => q.2).sum := by
        apply List.sum_nonneg
        intro x hx
        simp only [List.mem_map] at hx
        obtain ⟨q, hq, rfl⟩ := hx
        have hmem : q ∈ l.filterMap spec_gt_pair := by
          rw [hfm]; exact List.mem_cons_of_mem _ hq
        rw [List.mem_filterMap] at hmem
        obtain ⟨e, _, he⟩ := hmem
        exact le_of_lt (spec_gt_pair_weight_pos e q he)
      linarith
  · intro hfm
    unfold gt_weights
    rw [hfm]
    rfl

theorem gt_scores_bounds (l : List FeedbackDict) (hr : ratings_in_range l) :
    0 ≤ gt_scores l ∧ gt_scores l ≤ gt_weights l := by
  induction l with
  | nil => simp [gt_scores, gt_weights]
  | cons e rest ih =>
    have hrrest : ratings_in_range rest :=
      fun x hx => hr x (List.mem_cons_of_mem _ hx)
    obtain ⟨ih0, ih1⟩ := ih hrrest
    rcases hp : spec_gt_pair e with _ | p
    · have hs : gt_scores (e :: rest) = gt_scores rest := by
        simp [gt_scores, List.filterMap_cons, hp]
      have hw : gt_weights (e :: rest) = gt_weights rest := by
        simp [gt_weights, List.filterMap_cons, hp]
      rw [hs, hw]
      exact ⟨ih0, ih1⟩
    · have hs : gt_scores (e :: rest) = p.1 * p.2 + gt_scores rest := by
        simp [gt_scores, List.filterMap_cons, hp]
      have hw : gt_weights (e :: rest) = p.2 + gt_weights rest := by
        simp [gt_weights, List.filterMap_cons, hp]
      have hwp := spec_gt_pair_weight_pos e p hp
      obtain ⟨hs0, hs1⟩ := spec_gt_pair_score_range e p hp
        (hr e (List.mem_cons_self e rest))
      rw [hs, hw]
      constructor
      · have : 0 ≤ p.1 * p.2 := mul_nonneg hs0 (le_of_lt hwp)
        linarith
      · have : p.1 * p.2 ≤ p.2 := by
          calc p.1 * p.2 ≤ 1 * p.2 := by
                exact mul_le_mul_of_nonneg_right hs1 (le_of_lt hwp)
            _ = p.2 := one_mul _
        linarith

/-- C4: the Ground-Truth Aggregator returns Σ(score·weight)/Σ(weight)
over the recognized events with the §4.3 per-kind (score, weight) table;
a single rating=5 event yields exactly 1, a single rating=1 event exactly
0, and a single rating=3 event exactly 1/2. -/
theorem C4_ground_truth_weighted_average :
    (∀ l : List FeedbackDict, no_null_ratings l →
      calculate_ground_truth l =
        if gt_weights l = 0 then .ok none
        else .ok (some (gt_scores l / gt_weights l)))
    ∧ calculate_ground_truth
        [{ type := "rating", rating := some (some 5), interaction_duration := none,
           dismiss_reason := none, timestamp := none }] = .ok (some 1)
    ∧ calculate_ground_truth
        [{ type := "rating", rating := some (some 1), interaction_duration := none,
           dismiss_reason := none, timestamp := none }] = .ok (some 0)
    ∧ calculate_ground_truth
        [{ type := "rating", rating := some (some 3), interaction_duration := none,
           dismiss_reason := none, timestamp := none }] = .ok (some (1/2)) := by
  refine ⟨calculate_ground_truth_ok, ?_, ?_, ?_⟩ <;>
    norm_num [calculate_ground_truth, gtLoop, ratingGet]

/-- Witness for C4: the general formula applied to a concrete one-view
list, discharging the non-null-rating hypothesis; the result is
(0.5·0.5)/0.5 = 1/2. -/
theorem C4_witness :
    calculate_ground_truth
        [{ type := "view", rating := none, interaction_duration := none,
           dismiss_reason := none, timestamp := none }] = .ok (some (1/2)) := by
  have h := C4_ground_truth_weighted_average.1
    [{ type := "view", rating := none, interaction_duration := none,
       dismiss_reason := none, timestamp := none }]
    (by
      intro e he h1
      simp only [List.mem_cons, List.not_mem_nil, or_false] at he
      subst he
      exact absurd h1 (by decide))
  rw [h]
  norm_num [gt_weights, gt_scores, spec_gt_pair, ratingGet,
    List.filterMap_cons, List.filterMap_nil,
    show ¬("view":String) = "rating" from by decide,
    show ¬("view":String) = "mark_relevant" from by decide,
    show ¬("view":String) = "mark_irrelevant" from by decide,
    show ¬("view":String) = "click" from by decide]

/-- C5: the Ground-Truth Aggregator returns the `None` sentinel exactly
when the list holds no event of a recognized kind (total weight zero, in
particular the empty list); an unrecognized kind contributes neither
score nor weight; whenever a value is returned it lies in [0,1]. -/
theorem C5_ground_truth_none_and_range :
    (∀ l : List FeedbackDict, no_null_ratings l →
      (calculate_ground_truth l = .ok none ↔ l.filterMap spec_gt_pair = []))
    ∧ (∀ (e : FeedbackDict) (l : List FeedbackDict), spec_gt_pair e = none →
        calculate_ground_truth (e :: l) = calculate_ground_truth l)
    ∧ (∀ (l : List FeedbackDict) (q : ℚ), no_null_ratings l →
        ratings_in_range l → calculate_ground_truth l = .ok (some q) →
        0 ≤ q ∧ q ≤ 1) := by
  refine ⟨?_, ?_, ?_⟩
  · intro l h
    rw [calculate_ground_truth_ok l h]
    constructor
    · intro heq
      by_cases w0 : gt_weights l = 0
      · exact (gt_weights_eq_zero_iff l).mp w0
      · rw [if_neg w0] at heq
        exact absurd heq (by simp)
    · intro hfm
      rw [if_pos ((gt_weights_eq_zero_iff l).mpr hfm)]
  · intro e l hp
    have hcond := hp
    unfold spec_gt_pair at hcond
    split_ifs at hcond with h1 h2 h3 h4 h5 h6
    have hstep : ∀ acc, gtLoop (e :: l) acc = gtLoop l acc := by
      intro acc
      simp only [gtLoop, if_neg h1, if_neg h2, if_neg h3, if_neg h4, if_neg h5,
        if_neg h6]
    unfold calculate_ground_truth
    rw [if_neg (List.cons_ne_nil e l), hstep]
    by_cases hnil : l = []
    · subst hnil
      norm_num [gtLoop]
    · rw [if_neg hnil]
  · intro l q h hr heq
    rw [calculate_ground_truth_ok l h] at heq
    by_cases w0 : gt_weights l = 0
    · rw [if_pos w0] at heq
      exact absurd heq (by simp)
    · rw [if_neg w0] at heq
      simp only [Except.ok.injEq, Option.some.injEq] at heq
      subst heq
      obtain ⟨hs0, hsw⟩ := gt_scores_bounds l hr
      have hw0 : 0 < gt_weights l :=
        lt_of_le_of_ne (gt_weights_nonneg l) (Ne.symm w0)
      exact ⟨div_nonneg hs0 (le_of_lt hw0), (div_le_one hw0).mpr hsw⟩

/-- Witness for C5: an event of unrecognized kind prepended to a one-click
list leaves the aggregator's result unchanged; the hypothesis that the
kind is unrecognized is discharged concretely. -/
theorem C5_witness :
    calculate_ground_truth
        [{ type := "unknown_kind", rating := none, interaction_duration := none,
           dismiss_reason := none, timestamp := none },
         { type := "click", rating := none, interaction_duration := none,
           dismiss_reason := none, timestamp := none }] =
      calculate_ground_truth
        [{ type := "click", rating := none, interaction_duration := none,
           dismiss_reason := none, timestamp := none }] :=
  C5_ground_truth_none_and_range.2.1
    { type := "unknown_kind", rating := none, interaction_duration := none,
      dismiss_reason := none, timestamp := none }
    [{ type := "click", rating := none, interaction_duration := none,
       dismiss_reason := none, timestamp := none }]
    (by
      norm_num [spec_gt_pair,
        show ¬("unknown_kind":String) = "rating" from by decide,
        show ¬("unknown_kind":String) = "mark_relevant" from by decide,
        show ¬("unknown_kind":String) = "mark_irrelevant" from by decide,
        show ¬("unknown_kind":String) = "click" from by decide,
        show ¬("unknown_kind":String) = "view" from by decide,
        show ¬("unknown_kind":String) = "dismiss" from by decide])

/-- C10: the rating default 3 applies only when the `"rating"` key is
omitted; a rating event whose key is present with a null value reaches
the error branch; the dictionaries built by `get_relevance_training_data`
always carry the key; and ground-truth computation is total exactly on
lists whose rating events hold non-null values. -/
theorem C10_rating_null_totality :
    calculate_ground_truth
        [{ type := "rating", rating := none, interaction_duration := none,
           dismiss_reason := none, timestamp := none }] = .ok (some (1/2))
    ∧ calculate_ground_truth
        [{ type := "rating", rating := some (some 4), interaction_duration := none,
           dismiss_reason := none, timestamp := none }] = .ok (some (3/4))
    ∧ calculate_ground_truth
        [{ type := "rating", rating := some none, interaction_duration := none,
           dismiss_reason := none, timestamp := none }] = .error ()
    ∧ (∀ (ftype : String) (rating : Option ℤ) (d : Option ℚ)
          (rs : Option String) (ts : Option String),
        (training_feedback_row ftype rating d rs ts).rating = some rating)
    ∧ (∀ l : List FeedbackDict, no_null_ratings l →
        ∃ v, calculate_ground_truth l = .ok v) := by
  refine ⟨?_, ?_, ?_, fun _ _ _ _ _ => rfl, ?_⟩
  · norm_num [calculate_ground_truth, gtLoop, ratingGet]
  · norm_num [calculate_ground_truth, gtLoop, ratingGet]
  · norm_num [calculate_ground_truth, gtLoop, ratingGet]
  · intro l h
    rw [calculate_ground_truth_ok l h]
    by_cases w0 : gt_weights l = 0
    · exact ⟨none, if_pos w0⟩
    · exact ⟨some (gt_scores l / gt_weights l), if_neg w0⟩

/-- Witness for C10: totality applied to a concrete training-data row
with a non-null rating, discharging the non-null hypothesis. -/
theorem C10_witness :
    ∃ v, calculate_ground_truth
        [training_feedback_row ("rating") (some 2) none none none] = .ok v :=
  C10_rating_null_totality.2.2.2.2
    [training_feedback_row ("rating") (some 2) none none none]
    (by
      intro e he h1
      simp only [List.mem_cons, List.not_mem_nil, or_false] at he
      subst he
      simp [training_feedback_row])

/-- C6: `train_with_feedback` never raises for empty or
ground-truth-less input: on the empty list it returns status "no_data"
with the state unchanged; when no record yields a ground truth (in
particular when every alert has zero feedback events, for which
`collectSamples` yields the empty sample list) it returns
"no_valid_data" with the state unchanged; otherwise it returns "success"
with the count of valid samples. -/
theorem except_bind_ok {α β : Type} (a : α) (f : α → Except Unit β) :
    (Except.ok a >>= f) = f a := rfl

theorem C6_train_with_feedback_status :
    (∀ (now : String) (st : ModelState),
      train_with_feedback now st [] =
        .ok ({ status := "no_data", message := "No training data provided",
               performance := st.model_performance, training_samples := none },
             st))
    ∧ (∀ (now : String) (st : ModelState) (training_data : List AlertData),
        training_data ≠ [] → collectSamples training_data = .ok [] →
        train_with_feedback now st training_data =
          .ok ({ status := "no_valid_data",
                 message := "No valid training examples found",
                 performance := st.model_performance, training_samples := none },
               st))
    ∧ (∀ (training_data : List AlertData),
        (∀ r ∈ training_data, r.feedback.getD [] = []) →
        collectSamples training_data = .ok [])
    ∧ (∀ (now : String) (st : ModelState) (training_data : List AlertData)
          (samples : List (Features × ℚ)),
        training_data ≠ [] → collectSamples training_data = .ok samples →
        samples ≠ [] →
        train_with_feedback now st training_data =
          .ok ({ status := "success",
                 message := "Trained on " ++ toString samples.length
                   ++ " examples",
                 performance := train_performance now samples,
                 training_samples := some samples.length },
               { feedback_data := samples,
                 model_performance := train_performance now samples })) := by
  refine ⟨?_, ?_, ?_, ?_⟩
  · intro now st
    simp [train_with_feedback]
  · intro now st training_data htd hcs
    unfold train_with_feedback
    rw [if_neg htd, hcs, except_bind_ok]
    simp
  · intro training_data hfb
    induction training_data with
    | nil => rfl
    | cons r rest ih =>
      have hr : r.feedback.getD [] = [] := hfb r (List.mem_cons_self r rest)
      have hrest : collectSamples rest = .ok [] :=
        ih fun x hx => hfb x (List.mem_cons_of_mem _ hx)
      unfold collectSamples
      rw [hr]
      simp only [show calculate_ground_truth [] = Except.ok none from rfl, hrest]
      rfl
  · intro now st training_data samples htd hcs hs
    unfold train_with_feedback
    rw [if_neg htd, hcs, except_bind_ok]
    simp only []
    rw [if_neg hs]
    simp [List.length_map]

/-- Witness for C6: the retrainer applied to a concrete one-record list
whose alert has zero feedback events — status "no_valid_data", state
unchanged — discharging both hypotheses concretely. -/
theorem C6_witness :
    train_with_feedback ("t0") initial_model_state
        [{ alert_id := some 1, alert_type := some ("price_gain"),
           symbol := some ("AAPL"), message := some ("m"),
           predicted_relevance := some 0.5, feedback := some [] }] =
      .ok ({ status := "no_valid_data",
             message := "No valid training examples found",
             performance := initial_model_state.model_performance,
             training_samples := none }, initial_model_state) := by
  apply C6_train_with_feedback_status.2.1
  · simp
  · rfl

/-- C7: `_calculate_performance_metrics` rebuilds a synthetic alert per
feature set, scores it with `predict_relevance` under the fixed defaults
{min_price_change_alert: 1.0, risk_profile: "moderate"} and an empty
portfolio context, reports accuracy as the fraction of predictions
within 0.2 of the label, and copies accuracy into precision, recall and
F1. -/
theorem C7_performance_metrics_copies :
    ∀ (features : List Features) (labels : List ℚ),
      features ≠ [] → labels ≠ [] →
      calculate_performance_metrics features labels =
        { accuracy := spec_accuracy features labels,
          precision := spec_accuracy features labels,
          «recall» := spec_accuracy features labels,
          f1_score := spec_accuracy features labels } := by
  intro features labels hf hl
  unfold calculate_performance_metrics spec_accuracy
  rw [if_neg (by simp [hf, hl])]
  simp only []
  rw [if_pos (by simp [hf])]
  simp [synthetic_alert, default_user_preferences, mock_portfolio_context]

/-- Witness for C7: the metrics computed on a concrete singleton input
through the theorem, discharging the nonemptiness hypotheses. -/
theorem C7_witness :
    calculate_performance_metrics [example_feature] [1] =
      { accuracy := spec_accuracy [example_feature] [1],
        precision := spec_accuracy [example_feature] [1],
        «recall» := spec_accuracy [example_feature] [1],
        f1_score := spec_accuracy [example_feature] [1] } :=
  C7_performance_metrics_copies [example_feature] [1] (by simp) (by simp)

theorem bumpStat_count_sum (acc : List (String × StatAcc)) (k : String)
    (lab : ℚ) : statCountSum (bumpStat acc k lab) = statCountSum acc + 1 := by
  induction acc with
  | nil => simp [bumpStat, statCountSum]
  | cons p rest ih =>
    rcases p with ⟨k2, stat⟩
    unfold bumpStat
    by_cases hk : k2 = k
    · rw [if_pos hk]
      simp [statCountSum]
      omega
    · rw [if_neg hk]
      simp only [statCountSum, List.map_cons, List.sum_cons] at ih ⊢
      omega

theorem fold_count_sum (data : List (Features × ℚ)) :
    ∀ acc : List (String × StatAcc),
      statCountSum (data.foldl (fun a p => bumpStat a p.1.alert_type p.2) acc)
        = statCountSum acc + data.length := by
  induction data with
  | nil => intro acc; simp
  | cons p rest ih =>
    intro acc
    simp only [List.foldl_cons, List.length_cons]
    rw [ih, bumpStat_count_sum]
    omega

theorem findStat_bumpStat (acc : List (String × StatAcc)) (k k2 : String)
    (lab : ℚ) :
    findStat k2 (bumpStat acc k lab) =
      if k = k2 then
        match findStat k2 acc with
        | some s => some { count := s.count + 1,
                           total_relevance := s.total_relevance + lab }
        | none => some { count := 1, total_relevance := lab }
      else findStat k2 acc := by
  induction acc with
  | nil =>
    by_cases h : k = k2 <;> simp [bumpStat, findStat, h]
  | cons p rest ih =>
    rcases p with ⟨k3, s3⟩
    by_cases h3 : k3 = k
    · subst h3
      by_cases h32 : k3 = k2
      · subst h32
        simp [bumpStat, findStat]
      · simp [bumpStat, findStat, h32]
    · by_cases h32 : k3 = k2
      · subst h32
        simp [bumpStat, findStat, h3, show ¬k = k3 from fun h => h3 h.symm]
      · simp [bumpStat, findStat, h3, h32, ih]

theorem findStat_foldl (data : List (Features × ℚ)) :
    ∀ (acc : List (String × StatAcc)) (k : String),
      findStat k (data.foldl (fun a p => bumpStat a p.1.alert_type p.2) acc) =
        match findStat k acc with
        | some s => some { count := s.count + countType data k,
                           total_relevance := s.total_relevance + sumType data k }
        | none =>
          if countType data k = 0 then none
          else some { count := countType data k,
                      total_relevance := sumType data k } := by
  induction data with
  | nil =>
    intro acc k
    simp only [List.foldl_nil, countType, sumType, List.filter_nil,
      List.length_nil, List.map_nil, List.sum_nil]
    rcases findStat k acc with _ | s <;> simp
  | cons p rest ih =>
    intro acc k
    simp only [List.foldl_cons]
    rw [ih, findStat_bumpStat]
    by_cases hk : p.1.alert_type = k
    · rw [if_pos hk]
      have hc : countType (p :: rest) k = countType rest k + 1 := by
        simp [countType, List.filter_cons, hk]
      have hs : sumType (p :: rest) k = p.2 + sumType rest k := by
        simp [sumType, List.filter_cons, hk]
      rw [hc, hs]
      rcases findStat k acc with _ | s
      · simp only []
        rw [if_neg (by omega)]
        simp only [Option.some.injEq, StatAcc.mk.injEq]
        constructor
        · omega
        · ring
      · simp only [Option.some.injEq, StatAcc.mk.injEq]
        constructor
        · omega
        · ring
    · rw [if_neg hk]
      have hc : countType (p :: rest) k = countType rest k := by
        simp [countType, List.filter_cons, hk]
      have hs : sumType (p :: rest) k = sumType rest k := by
        simp [sumType, List.filter_cons, hk]
      rw [hc, hs]

theorem bumpStat_keys (acc : List (String × StatAcc)) (k : String) (lab : ℚ) :
    (bumpStat acc k lab).map Prod.fst =
      if k ∈ acc.map Prod.fst then acc.map Prod.fst
      else acc.map Prod.fst ++ [k] := by
  induction acc with
  | nil => simp [bumpStat]
  | cons p rest ih =>
    rcases p with ⟨k3, s3⟩
    by_cases h3 : k3 = k
    · subst h3
      simp [bumpStat]
    · by_cases hm : k ∈ rest.map Prod.fst <;>
        simp [bumpStat, h3, ih, hm, show ¬k = k3 from fun h => h3 h.symm,
          List.cons_append]

theorem bumpStat_keys_nodup (acc : List (String × StatAcc)) (k : String)
    (lab : ℚ) (h : (acc.map Prod.fst).Nodup) :
    ((bumpStat acc k lab).map Prod.fst).Nodup := by
  rw [bumpStat_keys]
  split_ifs with hm
  · exact h
  · rw [List.nodup_append]
    exact ⟨h, List.nodup_singleton k, by simpa [List.disjoint_singleton] using hm⟩

theorem foldl_keys_nodup (data : List (Features × ℚ)) :
    ∀ acc : List (String × StatAcc), (acc.map Prod.fst).Nodup →
      (((data.foldl (fun a p => bumpStat a p.1.alert_type p.2) acc)).map
          Prod.fst).Nodup := by
  induction data with
  | nil => intro acc h; simpa using h
  | cons p rest ih =>
    intro acc h
    simp only [List.foldl_cons]
    exact ih _ (bumpStat_keys_nodup acc p.1.alert_type p.2 h)

theorem findStat_of_mem (l : List (String × StatAcc))
    (hn : (l.map Prod.fst).Nodup) (k : String) (s : StatAcc)
    (hm : (k, s) ∈ l) : findStat k l = some s := by
  induction l with
  | nil => cases hm
  | cons p rest ih =>
    rcases p with ⟨k3, s3⟩
    simp only [List.map_cons, List.nodup_cons] at hn
    obtain ⟨hk3, hrest⟩ := hn
    rcases List.mem_cons.mp hm with heq | hmem
    · rw [Prod.mk.injEq] at heq
      obtain ⟨h1, h2⟩ := heq
      subst h1
      subst h2
      simp [findStat]
    · have hk : ¬k3 = k := by
        intro h
        subst h
        exact hk3 (List.mem_map_of_mem Prod.fst hmem)
      simp [findStat, hk, ih hrest hmem]

/-- C8: `get_feedback_insights` returns the "no feedback data" sentinel
exactly when no (features, label) pairs are stored; otherwise the
per-alert-type counts it reports sum to the reported total sample count,
each per-type average equals the mean of that type's labels, and the
overall average equals the unweighted mean of all labels. -/
theorem C8_feedback_insights (st : ModelState) :
    (get_feedback_insights st = .noFeedbackData ↔ st.feedback_data = [])
    ∧ ((alertTypeStats st.feedback_data).map fun p => p.2.count).sum
        = st.feedback_data.length
    ∧ (∀ (k : String) (t : TypeStat),
        (k, t) ∈ alertTypeStats st.feedback_data →
        t.count = countType st.feedback_data k
          ∧ t.avg_relevance =
              sumType st.feedback_data k / (countType st.feedback_data k : ℚ))
    ∧ (st.feedback_data ≠ [] →
        get_feedback_insights st =
          .insights st.feedback_data.length
            ((st.feedback_data.map fun p => p.2).sum
              / (st.feedback_data.length : ℚ))
            (alertTypeStats st.feedback_data)
            st.model_performance.last_updated) := by
  refine ⟨?_, ?_, ?_, ?_⟩
  · unfold get_feedback_insights
    by_cases h : st.feedback_data = [] <;> simp [h]
  · have h := fold_count_sum st.feedback_data []
    simpa [alertTypeStats, alert_type_stats_raw, statCountSum, List.map_map,
      Function.comp] using h
  · intro k t hm
    unfold alertTypeStats at hm
    rw [List.mem_map] at hm
    obtain ⟨⟨k2, s⟩, hmem, heq⟩ := hm
    rw [Prod.mk.injEq] at heq
    obtain ⟨hk, ht⟩ := heq
    subst hk
    subst ht
    have hn : ((alert_type_stats_raw st.feedback_data).map Prod.fst).Nodup :=
      foldl_keys_nodup st.feedback_data [] (by simp)
    have hfind := findStat_of_mem _ hn k2 s hmem
    have hfold := findStat_foldl st.feedback_data [] k2
    simp only [findStat] at hfold
    rw [show (st.feedback_data.foldl
        (fun a p => bumpStat a p.1.alert_type p.2) [])
        = alert_type_stats_raw st.feedback_data from rfl] at hfold
    rw [hfind] at hfold
    by_cases hc : countType st.feedback_data k2 = 0
    · rw [if_pos hc] at hfold
      exact absurd hfold (by simp)
    · rw [if_neg hc] at hfold
      simp only [Option.some.injEq] at hfold
      subst hfold
      simp
  · intro h
    unfold get_feedback_insights
    rw [if_neg h]

/-- Witness for C8: the insights report of a concrete two-group state
through the theorem, discharging the nonemptiness hypothesis. -/
theorem C8_witness :
    get_feedback_insights example_insights_state =
      .insights example_insights_state.feedback_data.length
        ((example_insights_state.feedback_data.map fun p => p.2).sum
          / (example_insights_state.feedback_data.length : ℚ))
        (alertTypeStats example_insights_state.feedback_data)
        example_insights_state.model_performance.last_updated :=
  (C8_feedback_insights example_insights_state).2.2.2
    (by simp [example_insights_state])

/-- Counterexample to C9 as stated: the query applies no upper window
bound, so a stored event with a timestamp after `now` (here "9999-…",
with now = "2026-10-12T00:00:00" and cutoff = now - 30 days) is returned
even though it lies outside the claimed window [now - daysBack, now]. -/
theorem C9_counterexample :
    (let ev : AlertFeedback :=
      { alert_id := 1, user_id := "u", feedback_type := FeedbackType.VIEW,
        timestamp := "9999-01-01T00:00:00", id := none, rating := none,
        relevance_score := none, interaction_duration := none,
        dismiss_reason := none, notes := none };
     ev ∈ get_feedback_for_user [ev] ("u") ("2025-09-12T00:00:00")
       ∧ ¬ev.timestamp ≤ ("2026-10-12T00:00:00" : String)) := by
  simp only []
  constructor
  · unfold get_feedback_for_user
    rw [(List.perm_insertionSort tsDesc _).mem_iff, List.mem_filter]
    refine ⟨by simp, ?_⟩
    rw [decide_eq_true_eq]
    exact ⟨rfl, by rw [String.le_iff_toList_le]; decide⟩
  · show ¬("9999-01-01T00:00:00" : String) ≤ ("2026-10-12T00:00:00" : String)
    rw [String.le_iff_toList_le]
    decide

/-- C9 as amended: `get_feedback_for_user` returns exactly the user's
feedback events with timestamp ≥ now - daysBack — only the lower window
bound is applied, no upper bound — ordered by timestamp descending. -/
theorem C9_feedback_for_user_lower_bound :
    ∀ (db : List AlertFeedback) (user_id cutoff : String),
      (∀ e : AlertFeedback,
        e ∈ get_feedback_for_user db user_id cutoff ↔
          (e ∈ db ∧ e.user_id = user_id ∧ cutoff ≤ e.timestamp))
      ∧ (get_feedback_for_user db user_id cutoff).Sorted tsDesc
      ∧ List.Perm (get_feedback_for_user db user_id cutoff)
          (db.filter fun f =>
            decide (f.user_id = user_id ∧ cutoff ≤ f.timestamp)) := by
  intro db user_id cutoff
  refine ⟨?_, ?_, ?_⟩
  · intro e
    unfold get_feedback_for_user
    rw [(List.perm_insertionSort tsDesc _).mem_iff, List.mem_filter,
      decide_eq_true_eq]
  · exact List.sorted_insertionSort tsDesc _
  · exact List.perm_insertionSort tsDesc _
